import Mathlib

/-!
Verification of the insuretecho data pipeline (src/data_cleaning.py,
src/risk_engine.py, src/config.py) as a shallow embedding.

Conventions of the embedding:
* Python text values are modelled as `String`; character-level processing
  works on `String.data : List Char` with structural recursion.
* Python floats are modelled as `ℚ` (the programs only do field parsing,
  comparisons, sums, divisions and rounding on them); `math.sqrt` is an
  explicit function parameter of the statistics code, since a square root
  does not exist inside `ℚ`.
* `round(x, n)` (round half to even) is `round_to n x` below.
* Fallible parsing returns `Option`; the validator returns an inductive
  result that is either a cleaned record or a single reason string.
-/

/-- A calendar timestamp as produced by `datetime.strptime(s, "%Y-%m-%d %H:%M:%S")`. -/
structure DateTime where
  year : ℕ
  month : ℕ
  day : ℕ
  hour : ℕ
  minute : ℕ
  second : ℕ
deriving DecidableEq, Inhabited

/-- Leap-year rule used by `datetime` (proleptic Gregorian calendar). -/
def isLeapYear (y : ℕ) : Bool := y % 4 == 0 && (y % 100 != 0 || y % 400 == 0)

/-- Number of days of month `m` (1-based) in year `y`. -/
def daysInMonth (y m : ℕ) : ℕ :=
  if m = 2 then (if isLeapYear y then 29 else 28)
  else if m = 4 ∨ m = 6 ∨ m = 9 ∨ m = 11 then 30
  else 31

/-- Days in the months of year `y` strictly before month `m`. -/
def daysBeforeMonth (y m : ℕ) : ℕ :=
  (List.range' 1 (m - 1)).foldl (fun acc i => acc + daysInMonth y i) 0

/-- Days of the proleptic Gregorian calendar strictly before year `y`. -/
def daysBeforeYear (y : ℕ) : ℕ :=
  365 * (y - 1) + (y - 1) / 4 - (y - 1) / 100 + (y - 1) / 400

/-- Absolute second count of a timestamp; `datetime` subtraction and
comparison agree with subtraction and comparison of these counts. -/
def toSeconds (d : DateTime) : ℕ :=
  ((daysBeforeYear d.year + daysBeforeMonth d.year d.month + (d.day - 1)) * 24
      + d.hour) * 3600 + d.minute * 60 + d.second

/-- Python `str.split(sep)` on character lists: splits at every separator and
keeps empty pieces. -/
def splitOnChar (sep : Char) : List Char → List (List Char)
  | [] => [[]]
  | c :: rest =>
    let r := splitOnChar sep rest
    if c = sep then [] :: r
    else
      match r with
      | h :: t => (c :: h) :: t
      | [] => [[c]]

/-- Whitespace trimming as done by Python `str.strip()`. -/
def trimChars (l : List Char) : List Char :=
  ((l.dropWhile Char.isWhitespace).reverse.dropWhile Char.isWhitespace).reverse

/-- Numeric value of a decimal digit character. -/
def digitVal (c : Char) : ℕ := c.toNat - 48

/-- Value of a digit string, most significant digit first. -/
def digitsToNat (l : List Char) : ℕ := l.foldl (fun n c => n * 10 + digitVal c) 0

/-- Parse a non-empty all-digit character list into a natural number. -/
def parseNat (l : List Char) : Option ℕ :=
  if l ≠ [] ∧ l.all Char.isDigit then some (digitsToNat l) else none

/-- Parse a digit field of `strptime` with a maximal digit count
(4 for `%Y`, 2 for the other fields used here). -/
def parseDigits (maxLen : ℕ) (l : List Char) : Option ℕ :=
  if l.length ≤ maxLen then parseNat l else none

/-- Range validation performed by the `datetime` constructor. -/
def mkDateTime (y mo d h mi se : ℕ) : Option DateTime :=
  if 1 ≤ y ∧ y ≤ 9999 ∧ 1 ≤ mo ∧ mo ≤ 12 ∧ 1 ≤ d ∧ d ≤ daysInMonth y mo
      ∧ h ≤ 23 ∧ mi ≤ 59 ∧ se ≤ 59 then
    some ⟨y, mo, d, h, mi, se⟩
  else none

/-- One `strptime(s, "%Y-%m-%d %H:%M:%S")` attempt on a character list. -/
def parseDatetimeFields (l : List Char) : Option DateTime :=
  match splitOnChar ' ' l with
  | [datePart, timePart] =>
    match splitOnChar '-' datePart, splitOnChar ':' timePart with
    | [ys, ms, ds], [hs, mis, ss] => do
      let y ← parseDigits 4 ys
      let mo ← parseDigits 2 ms
      let d ← parseDigits 2 ds
      let h ← parseDigits 2 hs
      let mi ← parseDigits 2 mis
      let se ← parseDigits 2 ss
      mkDateTime y mo d h mi se
    | _, _ => none
  | _ => none

/-- Embeds `DataCleaner._parse_datetime`: empty input gives `None`; the
stripped string is parsed in canonical form, and on failure the part before
the first comma is stripped and parsed again (recovery of a known malformed
variant with trailing text after the seconds). -/
def parse_datetime (s : String) : Option DateTime :=
  if s = "" then none
  else
    let t := trimChars s.data
    match parseDatetimeFields t with
    | some dt => some dt
    | none => parseDatetimeFields (trimChars ((splitOnChar ',' t).headD []))

/-- Unsigned part of Python `float(text)` on plain decimal literals:
digit run with at most one decimal point, either side of the point may be
empty but not both. -/
def parseUnsignedDecimal (l : List Char) : Option ℚ :=
  match splitOnChar '.' l with
  | [a] => (parseNat a).map (fun n => (n : ℚ))
  | [a, b] =>
    if a = [] ∧ b = [] then none
    else
      match (if a = [] then some 0 else parseNat a),
          (if b = [] then some 0 else parseNat b) with
      | some ip, some fp => some ((ip : ℚ) + (fp : ℚ) / 10 ^ b.length)
      | _, _ => none
  | _ => none

/-- Signed decimal literal. -/
def parseDecimalChars (l : List Char) : Option ℚ :=
  match l with
  | '-' :: rest => (parseUnsignedDecimal rest).map Neg.neg
  | '+' :: rest => parseUnsignedDecimal rest
  | _ => parseUnsignedDecimal l

/-- Embeds `DataCleaner._parse_float`: `None`/empty gives `None`, otherwise
`float(value)` on the whitespace-stripped text (modelled for the plain
decimal literals the data contains; exotic float syntax is out of scope). -/
def parse_float (v : String) : Option ℚ :=
  if v = "" then none else parseDecimalChars (trimChars v.data)

/-- Truncation toward zero, the behaviour of Python `int` on a float. -/
def int_of_float (q : ℚ) : ℤ := if 0 ≤ q then ⌊q⌋ else ⌈q⌉

/-- Embeds `DataCleaner._parse_int`: `int(float(value))`, so the text is
first read as a float and then truncated toward zero. -/
def parse_int (v : String) : Option ℤ := (parse_float v).map int_of_float

/-- Python `round(x, ·)` to an integer: round half to even. -/
def pyRoundInt (q : ℚ) : ℤ :=
  let f := ⌊q⌋
  let r := q - f
  if r < 1 / 2 then f
  else if 1 / 2 < r then f + 1
  else if f % 2 = 0 then f else f + 1

/-- Python `round(x, n)` for `n` decimal digits. -/
def round_to (n : ℕ) (q : ℚ) : ℚ := (pyRoundInt (q * 10 ^ n) : ℚ) / 10 ^ n

/- Configuration constants of src/config.py. -/

/-- Entries of the `VALIDATION_THRESHOLDS` dictionary. -/
def max_distance_miles : ℚ := 50

/-- Lower fare bound. -/
def min_fare : ℚ := 0

/-- Upper fare bound. -/
def max_fare : ℚ := 500

/-- Lower trip duration bound in minutes. -/
def min_trip_duration_minutes : ℚ := 1

/-- Upper trip duration bound in minutes. -/
def max_trip_duration_minutes : ℚ := 1440

/-- Lower passenger count bound. -/
def min_passenger_count : ℤ := 1

/-- Upper passenger count bound. -/
def max_passenger_count : ℤ := 8

/-- Valid rate codes. -/
def VALID_RATE_CODES : List ℤ := [1, 2, 3, 4, 5]

/-- Valid payment types. -/
def VALID_PAYMENT_TYPES : List ℤ := [1, 2, 3, 4, 5]

/-- Valid store-and-forward flags. -/
def VALID_STORE_FWD_FLAGS : List String := ["Y", "N"]

/-- Late-night hours. -/
def LATE_NIGHT_HOURS : List ℕ := [22, 23, 0, 1, 2, 3, 4, 5]

/-- Risk weights (density, late night, volatility). -/
structure RiskWeights where
  density : ℚ
  late_night : ℚ
  volatility : ℚ

/-- The configured `RISK_WEIGHTS` values 0.4 / 0.3 / 0.3. -/
def RISK_WEIGHTS : RiskWeights := ⟨2 / 5, 3 / 10, 3 / 10⟩

/-- Rows per progress chunk. -/
def CHUNK_SIZE : ℕ := 50000

/-- The valid zone-id set. The lookup file is an external input; this is the
documented fallback `set(range(1, 264))` used by `_load_zone_ids` whenever the
lookup is missing or incomplete. -/
def zone_ids : List ℤ := (List.range 263).map (fun n => (n : ℤ) + 1)

/-- One raw CSV row, field name to text, as handed to `_validate_record`
(`row.get(name, "")`, missing fields defaulting to the empty string). -/
structure RawRecord where
  tpep_pickup_datetime : String := ""
  tpep_dropoff_datetime : String := ""
  trip_distance : String := ""
  fare_amount : String := ""
  total_amount : String := ""
  passenger_count : String := ""
  PULocationID : String := ""
  DOLocationID : String := ""
  RatecodeID : String := ""
  payment_type : String := ""
  store_and_fwd_flag : String := ""
  VendorID : String := ""
  extra : String := ""
  mta_tax : String := ""
  tip_amount : String := ""
  tolls_amount : String := ""
  improvement_surcharge : String := ""
  congestion_surcharge : String := ""

/-- The cleaned record dictionary built at the end of `_validate_record`.
The source stores the two timestamps as their canonical string rendering;
the rendering is injective on parsed timestamps, so the embedding keeps the
timestamp values themselves. -/
structure CleanedRecord where
  trip_id : ℕ
  vendor_id : Option ℤ
  pickup_datetime : DateTime
  dropoff_datetime : DateTime
  passenger_count : ℤ
  trip_distance : ℚ
  ratecode_id : ℤ
  store_and_fwd_flag : String
  pulocation_id : ℤ
  dolocation_id : ℤ
  payment_type : ℤ
  fare_amount : ℚ
  extra : ℚ
  mta_tax : ℚ
  tip_amount : ℚ
  tolls_amount : ℚ
  improvement_surcharge : ℚ
  total_amount : ℚ
  congestion_surcharge : ℚ
  trip_duration_minutes : ℚ
  hour_of_day : ℕ
deriving DecidableEq, Inhabited

/-- The outcome of `_validate_record`: `(True, record, None)` or
`(False, None, reason)`. -/
inductive ValidationResult where
  | valid : CleanedRecord → ValidationResult
  | invalid : String → ValidationResult
deriving DecidableEq

/-- Projection used by the pipeline: the record of a valid result. -/
def get_valid : ValidationResult → Option CleanedRecord
  | .valid r => some r
  | .invalid _ => none

/-- Whether a result is valid. -/
def ValidationResult.isValid : ValidationResult → Bool
  | .valid _ => true
  | .invalid _ => false

/-- Python truthiness default `x or 0.0` on an optional float: `None` and
`0.0` give `0.0`, every other value is kept. -/
def or0 (v : Option ℚ) : ℚ :=
  match v with
  | none => 0
  | some q => if q = 0 then 0 else q

/-- Rules 8..11 of `_validate_record` and the cleaned-record construction
(the tail of the same source function, split out only to keep terms
manageable; `validate_record` below is the entry point). -/
def validate_tail (row : RawRecord) (row_index : ℕ)
    (pickup_dt dropoff_dt : DateTime) (trip_distance fare_amount : ℚ)
    (passenger_count pulocation_id dolocation_id : ℤ) : ValidationResult :=
  let trip_duration_minutes : ℚ :=
    ((toSeconds dropoff_dt : ℚ) - (toSeconds pickup_dt : ℚ)) / 60
  if trip_duration_minutes < min_trip_duration_minutes then
    .invalid "trip_duration_too_short"
  else if max_trip_duration_minutes < trip_duration_minutes then
    .invalid "trip_duration_exceeds_max"
  else
    match parse_int row.RatecodeID with
    | none => .invalid "invalid_ratecode"
    | some ratecode_id =>
      if ratecode_id ∉ VALID_RATE_CODES then .invalid "invalid_ratecode"
      else
        match parse_int row.payment_type with
        | none => .invalid "invalid_payment_type"
        | some payment_type =>
          if payment_type ∉ VALID_PAYMENT_TYPES then
            .invalid "invalid_payment_type"
          else
            let store_fwd_flag : String := ⟨trimChars row.store_and_fwd_flag.data⟩
            if store_fwd_flag ∉ VALID_STORE_FWD_FLAGS then
              .invalid "invalid_store_fwd_flag"
            else
              .valid
                { trip_id := row_index
                  vendor_id := parse_int row.VendorID
                  pickup_datetime := pickup_dt
                  dropoff_datetime := dropoff_dt
                  passenger_count := passenger_count
                  trip_distance := round_to 2 trip_distance
                  ratecode_id := ratecode_id
                  store_and_fwd_flag := store_fwd_flag
                  pulocation_id := pulocation_id
                  dolocation_id := dolocation_id
                  payment_type := payment_type
                  fare_amount := round_to 2 fare_amount
                  extra := round_to 2 (or0 (parse_float row.extra))
                  mta_tax := round_to 2 (or0 (parse_float row.mta_tax))
                  tip_amount := round_to 2 (or0 (parse_float row.tip_amount))
                  tolls_amount := round_to 2 (or0 (parse_float row.tolls_amount))
                  improvement_surcharge :=
                    round_to 2 (or0 (parse_float row.improvement_surcharge))
                  total_amount :=
                    match parse_float row.total_amount with
                    | none => 0
                    | some t => if t = 0 then 0 else round_to 2 t
                  congestion_surcharge :=
                    round_to 2 (or0 (parse_float row.congestion_surcharge))
                  trip_duration_minutes := round_to 2 trip_duration_minutes
                  hour_of_day := pickup_dt.hour }

/-- Embeds `DataCleaner._validate_record` line by line: the ordered rule
battery with first-failure reason, then construction of the cleaned record. -/
def validate_record (row : RawRecord) (row_index : ℕ) : ValidationResult :=
  match parse_datetime row.tpep_pickup_datetime,
      parse_datetime row.tpep_dropoff_datetime with
  | some pickup_dt, some dropoff_dt =>
    if toSeconds dropoff_dt ≤ toSeconds pickup_dt then
      .invalid "dropoff_before_or_equal_pickup"
    else if pickup_dt.year ≠ 2019 ∨ pickup_dt.month ≠ 1 then
      .invalid "date_out_of_range"
    else
      match parse_float row.trip_distance with
      | none => .invalid "negative_or_null_distance"
      | some trip_distance =>
        if trip_distance < 0 then .invalid "negative_or_null_distance"
        else if max_distance_miles < trip_distance then
          .invalid "distance_exceeds_max"
        else
          match parse_float row.fare_amount with
          | none => .invalid "negative_or_null_fare"
          | some fare_amount =>
            if fare_amount < min_fare then .invalid "negative_or_null_fare"
            else if max_fare < fare_amount then .invalid "fare_exceeds_max"
            else
              match parse_int row.passenger_count with
              | none => .invalid "invalid_passenger_count"
              | some passenger_count =>
                if passenger_count < min_passenger_count then
                  .invalid "invalid_passenger_count"
                else if max_passenger_count < passenger_count then
                  .invalid "passenger_count_exceeds_max"
                else
                  match parse_int row.PULocationID with
                  | none => .invalid "invalid_pulocation_id"
                  | some pulocation_id =>
                    if pulocation_id ∉ zone_ids then
                      .invalid "invalid_pulocation_id"
                    else
                      match parse_int row.DOLocationID with
                      | none => .invalid "invalid_dolocation_id"
                      | some dolocation_id =>
                        if dolocation_id ∉ zone_ids then
                          .invalid "invalid_dolocation_id"
                        else
                          validate_tail row row_index pickup_dt dropoff_dt
                            trip_distance fare_amount passenger_count
                            pulocation_id dolocation_id
  | _, _ => .invalid "invalid_datetime_format"

/- Ingestion pipeline (DataCleaner.process_csv_chunks). -/

/-- The summary counters of `DataCleaner.stats`. -/
structure CleanStats where
  total_processed : ℕ
  total_valid : ℕ
  total_excluded : ℕ
  excluded_by_reason : List (String × ℕ)
deriving DecidableEq

/-- Dictionary update `d[reason] = d.get(reason, 0) + 1` on an insertion
ordered association list. -/
def bump_reason : List (String × ℕ) → String → List (String × ℕ)
  | [], r => [(r, 1)]
  | (k, n) :: rest, r =>
    if k = r then (k, n + 1) :: rest else (k, n) :: bump_reason rest r

/-- Mutable state of the chunked ingestion loop. -/
structure CleanState where
  cleaned_trips : List CleanedRecord
  excluded_records : List (ℕ × String)
  stats : CleanStats
  chunk : List ValidationResult
  chunk_count : ℕ
deriving DecidableEq

/-- State at the start of `process_csv_chunks`. -/
def init_state : CleanState := ⟨[], [], ⟨0, 0, 0, []⟩, [], 0⟩

/-- The chunk bookkeeping at the end of the loop body: append the result,
and when the chunk reaches the configured size report it and reset. -/
def push_chunk (chunk_size : ℕ) (st : CleanState) (res : ValidationResult) :
    CleanState :=
  let st := { st with chunk := st.chunk ++ [res] }
  if chunk_size ≤ st.chunk.length then
    { st with chunk_count := st.chunk_count + 1, chunk := [] }
  else st

/-- One iteration of the `process_csv_chunks` row loop: count the row,
validate it, accumulate it on the valid or the excluded side, then do the
chunk bookkeeping. -/
def process_step (chunk_size : ℕ) (st : CleanState) (idx : ℕ)
    (row : RawRecord) : CleanState :=
  let st := { st with stats := { st.stats with
    total_processed := st.stats.total_processed + 1 } }
  match validate_record row idx with
  | .valid rec =>
    push_chunk chunk_size
      { st with
        cleaned_trips := st.cleaned_trips ++ [rec]
        stats := { st.stats with total_valid := st.stats.total_valid + 1 } }
      (.valid rec)
  | .invalid reason =>
    push_chunk chunk_size
      { st with
        excluded_records := st.excluded_records ++ [(idx, reason)]
        stats := { st.stats with
          total_excluded := st.stats.total_excluded + 1
          excluded_by_reason := bump_reason st.stats.excluded_by_reason reason } }
      (.invalid reason)

/-- The row loop of `process_csv_chunks`, rows enumerated from `idx`
(the source enumerates from 1). -/
def process_rows (chunk_size : ℕ) : CleanState → ℕ → List RawRecord → CleanState
  | st, _, [] => st
  | st, idx, row :: rest =>
    process_rows chunk_size (process_step chunk_size st idx row) (idx + 1) rest

/-- Embeds `DataCleaner.process_csv_chunks` on an in-memory record source:
the row loop from index 1 followed by the final partial-chunk report.
(`MAX_ROWS_TO_PROCESS` is `None` in the configuration, so no row cap is
applied.) -/
def process_csv_chunks (chunk_size : ℕ) (rows : List RawRecord) : CleanState :=
  let st := process_rows chunk_size init_state 1 rows
  if 0 < st.chunk.length then { st with chunk_count := st.chunk_count + 1 }
  else st

/- Risk engine (src/risk_engine.py). The engine re-reads the cleaned trips
from CSV; the write/read round trip restores the stored field values, so the
embedding passes the cleaned records directly. -/

/-- Embeds `RiskEngine._compute_manual_variance`. `sqrt` stands for
`math.sqrt`, which has no exact counterpart inside `ℚ` and is therefore an
explicit parameter of the embedding (the empty case returns before it is
ever consulted). -/
def compute_manual_variance (sqrt : ℚ → ℚ) (values : List ℚ) : ℚ × ℚ :=
  if values.length = 0 then (0, 0)
  else
    let mean : ℚ := values.sum / values.length
    let sum_squared_diff : ℚ :=
      values.foldl (fun acc value => acc + (value - mean) * (value - mean)) 0
    let variance := sum_squared_diff / values.length
    (variance, sqrt variance)

/-- Per zone-hour aggregate built by `compute_exposure_density`. -/
structure ZoneHourAgg where
  count : ℕ
  total_duration : ℚ
  trips : List CleanedRecord
deriving DecidableEq

/-- Aggregation step for one trip: initialize or update the entry of its
zone-hour key, preserving dictionary insertion order. -/
def zh_update : List ((ℤ × ℕ) × ZoneHourAgg) → (ℤ × ℕ) → CleanedRecord →
    List ((ℤ × ℕ) × ZoneHourAgg)
  | [], key, t => [(key, ⟨1, t.trip_duration_minutes, [t]⟩)]
  | (k, a) :: rest, key, t =>
    if k = key then
      (k, ⟨a.count + 1, a.total_duration + t.trip_duration_minutes,
        a.trips ++ [t]⟩) :: rest
    else (k, a) :: zh_update rest key t

/-- First phase of `compute_exposure_density`: the `zone_hour_trips`
dictionary keyed by `(pulocation_id, hour_of_day)`. -/
def zone_hour_trips (trips : List CleanedRecord) :
    List ((ℤ × ℕ) × ZoneHourAgg) :=
  trips.foldl (fun acc t => zh_update acc (t.pulocation_id, t.hour_of_day) t) []

/-- One entry of `zone_hour_metrics`. -/
structure ZoneHourMetric where
  zone_id : ℤ
  hour : ℕ
  trip_count : ℕ
  avg_trip_duration : ℚ
  exposure_score : ℕ
deriving DecidableEq

/-- Embeds `RiskEngine.compute_exposure_density`: group the cleaned trips by
zone-hour key and convert each aggregate to its metric entry. -/
def compute_exposure_density (trips : List CleanedRecord) :
    List ((ℤ × ℕ) × ZoneHourMetric) :=
  (zone_hour_trips trips).map (fun kv =>
    let trip_count : ℕ := kv.2.count
    let avg_duration : ℚ :=
      if 0 < trip_count then kv.2.total_duration / (trip_count : ℚ) else 0
    (kv.1, ⟨kv.1.1, kv.1.2, trip_count, round_to 2 avg_duration, trip_count⟩))

/-- One entry of `zone_revenue_metrics`. -/
structure ZoneRevenueMetric where
  zone_id : ℤ
  avg_revenue : ℚ
  revenue_variance : ℚ
  revenue_std_dev : ℚ
  stability_score : ℚ
deriving DecidableEq

/-- Fare collection step of `compute_revenue_volatility`: append the total
amount to the fare list of the pickup zone, insertion ordered. -/
def zf_update : List (ℤ × List ℚ) → ℤ → ℚ → List (ℤ × List ℚ)
  | [], z, amount => [(z, [amount])]
  | (k, l) :: rest, z, amount =>
    if k = z then (k, l ++ [amount]) :: rest
    else (k, l) :: zf_update rest z amount

/-- First pass of `compute_revenue_volatility`: all `total_amount` values per
pickup zone. -/
def zone_fares (trips : List CleanedRecord) : List (ℤ × List ℚ) :=
  trips.foldl (fun acc t => zf_update acc t.pulocation_id t.total_amount) []

/-- The stability score of lines 160-161 of src/risk_engine.py:
`max(0, 1 - std_dev / max_possible_std)` with
`max_possible_std = mean_fare * 2 if mean_fare > 0 else 1`. -/
def stability_of (mean_fare std_dev : ℚ) : ℚ :=
  let max_possible_std : ℚ := if 0 < mean_fare then mean_fare * 2 else 1
  max 0 (1 - std_dev / max_possible_std)

/-- Embeds `RiskEngine.compute_revenue_volatility` (second pass): per-zone
mean, manual variance and standard deviation, and stability score. -/
def compute_revenue_volatility (sqrt : ℚ → ℚ) (trips : List CleanedRecord) :
    List (ℤ × ZoneRevenueMetric) :=
  (zone_fares trips).filterMap (fun zf =>
    if zf.2.isEmpty then none
    else
      let mean_fare : ℚ := zf.2.sum / zf.2.length
      let vs := compute_manual_variance sqrt zf.2
      some (zf.1,
        ⟨zf.1, round_to 2 mean_fare, round_to 2 vs.1, round_to 2 vs.2,
          round_to 4 (stability_of mean_fare vs.2)⟩))

/-- Python `max(values, default=dflt)`. -/
def py_max {α : Type} [LinearOrder α] (l : List α) (dflt : α) : α :=
  match l with
  | [] => dflt
  | x :: xs => xs.foldl max x

/-- Dictionary lookup `zone_id in zone_revenue_metrics`. -/
def lookup_revenue (l : List (ℤ × ZoneRevenueMetric)) (z : ℤ) :
    Option ZoneRevenueMetric :=
  (l.find? (fun p => p.1 == z)).map (fun p => p.2)

/-- One entry of `zone_risk_scores`. -/
structure RiskScore where
  zone_id : ℤ
  hour : ℕ
  trip_count : ℕ
  density_component : ℚ
  late_night_component : ℚ
  volatility_component : ℚ
  risk_score : ℚ
deriving DecidableEq

/-- Embeds `RiskEngine.compute_risk_scores`: global max normalization of
density and volatility, the late-night indicator, the weighted sum clamped
to [0, 1], and the rounded stored components. -/
def compute_risk_scores (zhm : List ((ℤ × ℕ) × ZoneHourMetric))
    (zrm : List (ℤ × ZoneRevenueMetric)) : List ((ℤ × ℕ) × RiskScore) :=
  let max_trip_count : ℕ := py_max (zhm.map (fun m => m.2.trip_count)) 1
  let max_volatility0 : ℚ :=
    py_max (zrm.map (fun m => m.2.revenue_std_dev)) 1
  let max_volatility : ℚ := if max_volatility0 = 0 then 1 else max_volatility0
  zhm.map (fun km =>
    let trip_count : ℕ := km.2.trip_count
    let density_normalized : ℚ :=
      if 0 < max_trip_count then (trip_count : ℚ) / (max_trip_count : ℚ) else 0
    let late_night_factor : ℚ := if km.1.2 ∈ LATE_NIGHT_HOURS then 1 else 0
    let volatility_normalized : ℚ :=
      match lookup_revenue zrm km.1.1 with
      | some m =>
        if 0 < max_volatility then m.revenue_std_dev / max_volatility else 0
      | none => 0
    let risk_score : ℚ :=
      RISK_WEIGHTS.density * density_normalized
        + RISK_WEIGHTS.late_night * late_night_factor
        + RISK_WEIGHTS.volatility * volatility_normalized
    let risk_score : ℚ := max 0 (min 1 risk_score)
    (km.1,
      ⟨km.1.1, km.1.2, trip_count,
        round_to 4 (RISK_WEIGHTS.density * density_normalized),
        round_to 4 (RISK_WEIGHTS.late_night * late_night_factor),
        round_to 4 (RISK_WEIGHTS.volatility * volatility_normalized),
        round_to 4 risk_score⟩))

/-- The composed pipeline of `DataCleaner.run` and `RiskEngine.run`:
cleaned trips, exclusion ledger, and the three metric collections, as a
function of the raw record sequence (and of `math.sqrt`). -/
def run_pipeline (sqrt : ℚ → ℚ) (chunk_size : ℕ) (rows : List RawRecord) :
    List CleanedRecord × List (ℕ × String) × List ((ℤ × ℕ) × ZoneHourMetric)
      × List (ℤ × ZoneRevenueMetric) × List ((ℤ × ℕ) × RiskScore) :=
  let st := process_csv_chunks chunk_size rows
  let zhm := compute_exposure_density st.cleaned_trips
  let zrm := compute_revenue_volatility sqrt st.cleaned_trips
  (st.cleaned_trips, st.excluded_records, zhm, zrm, compute_risk_scores zhm zrm)

/- Concrete records used by witnesses and counterexamples. -/

/-- A raw record that passes every validation rule, with `trip_distance`
exactly at the configured maximum of 50 miles. -/
def sample_row : RawRecord :=
  { tpep_pickup_datetime := "2019-01-15 10:00:00"
    tpep_dropoff_datetime := "2019-01-15 10:30:00"
    trip_distance := "50"
    fare_amount := "52.5"
    total_amount := "60.3"
    passenger_count := "1"
    PULocationID := "42"
    DOLocationID := "100"
    RatecodeID := "1"
    payment_type := "1"
    store_and_fwd_flag := "N"
    VendorID := "2"
    extra := "0.5"
    mta_tax := "0.5"
    tip_amount := "5"
    tolls_amount := "0"
    improvement_surcharge := "0.3"
    congestion_surcharge := "2.5" }

/-- `sample_row` with distance just above the maximum. -/
def row_distance_5001 : RawRecord := { sample_row with trip_distance := "50.01" }

/-- `sample_row` with dropoff equal to pickup. -/
def row_equal_times : RawRecord :=
  { sample_row with tpep_dropoff_datetime := "2019-01-15 10:00:00" }

/-- `sample_row` with an unparsable pickup timestamp and a negative fare:
it fails rule 1 and rule 5 simultaneously. -/
def row_bad_datetime_bad_fare : RawRecord :=
  { sample_row with tpep_pickup_datetime := "not-a-date", fare_amount := "-7" }

/-- `sample_row` with a negative `extra` charge (every validated field still
passes all rules; `extra` is never checked). -/
def row_neg_extra : RawRecord := { sample_row with extra := "-1" }

/-- `sample_row` with the fractional passenger count text "2.9". -/
def row_frac_passenger : RawRecord :=
  { sample_row with passenger_count := "2.9" }

/-- A rational is an exact two-decimal amount. -/
def IsCentRounded (q : ℚ) : Prop := ∃ z : ℤ, q = (z : ℚ) / 100

/- Helper lemmas about rounding and maxima. -/

theorem pyRoundInt_le (x : ℚ) (z : ℤ) (h : x ≤ (z : ℚ)) : pyRoundInt x ≤ z := by
  have hf : ⌊x⌋ ≤ z := by
    have h2 := Int.floor_le_floor h
    simpa using h2
  have hcase : ¬(x - (⌊x⌋ : ℚ) < 1 / 2) → ⌊x⌋ < z := by
    intro h1
    rcases lt_or_eq_of_le hf with hh | hh
    · exact hh
    · exfalso
      apply h1
      have hx : ((⌊x⌋ : ℤ) : ℚ) = (z : ℚ) := by exact_mod_cast hh
      linarith
  simp only [pyRoundInt]
  split
  · exact hf
  · rename_i h1
    have hlt := hcase h1
    split
    · omega
    · split <;> omega

theorem le_pyRoundInt (x : ℚ) (z : ℤ) (h : (z : ℚ) ≤ x) : z ≤ pyRoundInt x := by
  have hf : z ≤ ⌊x⌋ := Int.le_floor.mpr h
  simp only [pyRoundInt]
  split
  · exact hf
  · split
    · omega
    · split <;> omega

theorem round_to_le (n : ℕ) (q : ℚ) (z : ℤ) (h : q ≤ (z : ℚ) / 10 ^ n) :
    round_to n q ≤ (z : ℚ) / 10 ^ n := by
  have hp : (0 : ℚ) < 10 ^ n := by positivity
  have h1 : q * 10 ^ n ≤ (z : ℚ) := by
    rw [← le_div_iff hp]
    exact h
  have h3 : (pyRoundInt (q * 10 ^ n) : ℚ) ≤ (z : ℚ) := by
    exact_mod_cast pyRoundInt_le _ z h1
  unfold round_to
  exact (div_le_div_right hp).mpr h3

theorem le_round_to (n : ℕ) (q : ℚ) (z : ℤ) (h : (z : ℚ) / 10 ^ n ≤ q) :
    (z : ℚ) / 10 ^ n ≤ round_to n q := by
  have hp : (0 : ℚ) < 10 ^ n := by positivity
  have h1 : (z : ℚ) ≤ q * 10 ^ n := by
    rw [← div_le_iff hp]
    exact h
  have h3 : (z : ℚ) ≤ (pyRoundInt (q * 10 ^ n) : ℚ) := by
    exact_mod_cast le_pyRoundInt _ z h1
  unfold round_to
  exact (div_le_div_right hp).mpr h3

theorem round_to_nonneg (n : ℕ) (q : ℚ) (h : 0 ≤ q) : 0 ≤ round_to n q := by
  have h2 := le_round_to n q 0 (by simpa using h)
  simpa using h2

theorem isCentRounded_round_to_two (q : ℚ) : IsCentRounded (round_to 2 q) :=
  ⟨pyRoundInt (q * 10 ^ 2), by norm_num [round_to]⟩

theorem isCentRounded_zero : IsCentRounded 0 := ⟨0, by norm_num⟩

theorem init_le_foldl_max {α : Type} [LinearOrder α] :
    ∀ (l : List α) (x : α), x ≤ l.foldl max x := by
  intro l
  induction l with
  | nil => intro x; exact le_rfl
  | cons y ys ih =>
    intro x
    calc x ≤ max x y := le_max_left x y
    _ ≤ (y :: ys).foldl max x := by simpa using ih (max x y)

theorem le_foldl_max {α : Type} [LinearOrder α] :
    ∀ (l : List α) (x a : α), a ∈ l → a ≤ l.foldl max x := by
  intro l
  induction l with
  | nil => intro x a ha; cases ha
  | cons y ys ih =>
    intro x a ha
    rcases List.mem_cons.mp ha with rfl | ha
    · calc a ≤ max x a := le_max_right x a
      _ ≤ _ := by simpa using init_le_foldl_max ys (max x a)
    · simpa using ih (max x y) a ha

theorem mem_le_py_max {α : Type} [LinearOrder α] (l : List α) (d a : α)
    (h : a ∈ l) : a ≤ py_max l d := by
  cases l with
  | nil => cases h
  | cons y ys =>
    simp only [py_max]
    rcases List.mem_cons.mp h with rfl | h
    · exact init_le_foldl_max ys a
    · exact le_foldl_max ys y a h

/- Specialized rounding corollaries. -/

theorem round_to_two_le (q c : ℚ) (z : ℤ) (hc : c = (z : ℚ) / 100)
    (h : q ≤ c) : round_to 2 q ≤ c := by
  subst hc
  have h2 := round_to_le 2 q z (by norm_num; linarith)
  norm_num at h2
  exact h2

theorem le_round_to_two (q c : ℚ) (z : ℤ) (hc : c = (z : ℚ) / 100)
    (h : c ≤ q) : c ≤ round_to 2 q := by
  subst hc
  have h2 := le_round_to 2 q z (by norm_num; linarith)
  norm_num at h2
  exact h2

theorem round_to_four_le (q c : ℚ) (z : ℤ) (hc : c = (z : ℚ) / 10000)
    (h : q ≤ c) : round_to 4 q ≤ c := by
  subst hc
  have h2 := round_to_le 4 q z (by norm_num; linarith)
  norm_num at h2
  exact h2

/-- C6: for every raw record and index the validator returns exactly one of
a valid cleaned record or a single invalid reason, never both and never
neither; totality of `validate_record` is the embedded form of the
never-raises contract (the source catches any unexpected fault and converts
it to a `processing_error_` reason instead of propagating). -/
theorem C6_validator_total_exactly_one (row : RawRecord) (i : ℕ) :
    ((∃ rec, validate_record row i = .valid rec) ∧
      ∀ r, validate_record row i ≠ .invalid r) ∨
    ((∃ r, validate_record row i = .invalid r ∧
        ∀ r', validate_record row i = .invalid r' → r' = r) ∧
      ∀ rec, validate_record row i ≠ .valid rec) := by
  cases h : validate_record row i with
  | valid rec =>
    left
    refine ⟨⟨rec, rfl⟩, ?_⟩
    intro r hr
    cases hr
  | invalid r =>
    right
    constructor
    · refine ⟨r, rfl, ?_⟩
      intro r' hr'
      exact (ValidationResult.invalid.inj hr').symm
    · intro rec hrec
      cases hrec

/-- C9: the full pipeline is deterministic — identical record sequences
(under the same configuration: chunk size and the same `math.sqrt`) yield
identical cleaned output, exclusion ledger, and all three metric
collections. In the embedding every stage is a pure function of its input,
and grouping uses insertion-ordered association lists exactly like the
insertion-ordered dictionaries of the source. -/
theorem C9_pipeline_deterministic (sqrt : ℚ → ℚ) (chunk_size : ℕ)
    (rows1 rows2 : List RawRecord) (h : rows1 = rows2) :
    run_pipeline sqrt chunk_size rows1 = run_pipeline sqrt chunk_size rows2 := by
  rw [h]

/-- Witness for C9 at a concrete input. -/
theorem C9_pipeline_deterministic_witness :
    run_pipeline (fun _ => 0) CHUNK_SIZE [sample_row] =
      run_pipeline (fun _ => 0) CHUNK_SIZE [sample_row] :=
  C9_pipeline_deterministic (fun _ => 0) CHUNK_SIZE [sample_row] [sample_row] rfl

unseal Rat.add Rat.mul Rat.inv Rat.sub in
/-- C10: integer-valued fields are parsed as `int(float(text))`, truncation
toward zero, so the fractional text "2.9" for `passenger_count` is accepted
as the integer 2 rather than rejected. -/
theorem C10_int_fields_truncate :
    (∀ s : String, parse_int s = (parse_float s).map int_of_float) ∧
    parse_int "2.9" = some 2 ∧
    (get_valid (validate_record row_frac_passenger 1)).map
      (fun r => r.passenger_count) = some 2 :=
  ⟨fun _ => rfl, by decide, by decide⟩

/-- C2: rule order — a record whose timestamps fail to parse is reported as
`invalid_datetime_format` even when its fare also violates rule 5, and is
never reported as `negative_or_null_fare`. -/
theorem C2_first_failing_rule_wins (row : RawRecord) (i : ℕ)
    (hdt : parse_datetime row.tpep_pickup_datetime = none ∨
      parse_datetime row.tpep_dropoff_datetime = none)
    (hfare : parse_float row.fare_amount = none ∨
      ∃ q, parse_float row.fare_amount = some q ∧ (q < min_fare ∨ max_fare < q)) :
    validate_record row i = .invalid "invalid_datetime_format" ∧
    validate_record row i ≠ .invalid "negative_or_null_fare" := by
  have hmain : validate_record row i = .invalid "invalid_datetime_format" := by
    unfold validate_record
    rcases hdt with h | h
    · rw [h]
    · cases hp : parse_datetime row.tpep_pickup_datetime with
      | none => rfl
      | some p => rw [h]
  refine ⟨hmain, ?_⟩
  rw [hmain]
  intro hc
  exact absurd (ValidationResult.invalid.inj hc) (by decide)

unseal Rat.add Rat.mul Rat.inv Rat.sub in
/-- Witness for C2 at a concrete record failing rules 1 and 5 together. -/
theorem C2_first_failing_rule_wins_witness :
    validate_record row_bad_datetime_bad_fare 1 =
      .invalid "invalid_datetime_format" ∧
    validate_record row_bad_datetime_bad_fare 1 ≠
      .invalid "negative_or_null_fare" :=
  C2_first_failing_rule_wins row_bad_datetime_bad_fare 1
    (Or.inl (by decide))
    (Or.inr ⟨-7, by decide, Or.inl (by norm_num [min_fare])⟩)

/-- C3: the per-zone statistics are population variance by direct two-pass
summation: `[10, 10, 10]` has variance 0, standard deviation 0 and stability
1; `[0, 10, 20]` has mean 10 and variance 200/3, whose square root (the
standard deviation computed by `math.sqrt`) lies between 8.16 and 8.17; the
empty list yields `(0, 0)` without failing; and the stability formula is
`max(0, 1 - stddev / max_spread)` with `max_spread = 2 * mean` for positive
mean, else 1. -/
theorem C3_variance_stddev_stability :
    (∀ sqrt : ℚ → ℚ, compute_manual_variance sqrt [] = (0, 0)) ∧
    (∀ sqrt : ℚ → ℚ, sqrt 0 = 0 →
      compute_manual_variance sqrt [10, 10, 10] = (0, 0) ∧
      stability_of
        (([10, 10, 10] : List ℚ).sum / (([10, 10, 10] : List ℚ).length : ℚ))
        (compute_manual_variance sqrt [10, 10, 10]).2 = 1) ∧
    (∀ sqrt : ℚ → ℚ,
      (compute_manual_variance sqrt [0, 10, 20]).1 = 200 / 3 ∧
      ([0, 10, 20] : List ℚ).sum / (([0, 10, 20] : List ℚ).length : ℚ) = 10) ∧
    (∀ s : ℝ, 0 ≤ s →
      s ^ 2 = (((compute_manual_variance (fun q => q) [0, 10, 20]).1 : ℚ) : ℝ) →
      (8.16 : ℝ) < s ∧ s < 8.17) := by
  have hv3 : ∀ sqrt : ℚ → ℚ,
      compute_manual_variance sqrt [10, 10, 10] = (0, sqrt 0) := by
    intro sqrt
    unfold compute_manual_variance
    norm_num [List.foldl]
  have hv0 : ∀ sqrt : ℚ → ℚ,
      (compute_manual_variance sqrt [0, 10, 20]).1 = 200 / 3 := by
    intro sqrt
    unfold compute_manual_variance
    norm_num [List.foldl]
  refine ⟨?_, ?_, ?_, ?_⟩
  · intro sqrt
    unfold compute_manual_variance
    norm_num
  · intro sqrt hs
    constructor
    · rw [hv3, hs]
    · rw [hv3, hs]
      unfold stability_of
      norm_num
  · intro sqrt
    exact ⟨hv0 sqrt, by norm_num⟩
  · intro s hs hsq
    rw [hv0] at hsq
    have hsq2 : s ^ 2 = (200 : ℝ) / 3 := by
      rw [hsq]
      push_cast
      norm_num
    constructor
    · nlinarith [hsq2, hs]
    · nlinarith [hsq2, hs]

/-- Witness for C3: the concrete evaluations, with the real square root of
200/3 as the standard deviation of `[0, 10, 20]`. -/
theorem C3_variance_stddev_stability_witness :
    compute_manual_variance (fun _ => 0) [] = (0, 0) ∧
    compute_manual_variance (fun _ => 0) [10, 10, 10] = (0, 0) ∧
    (8.16 : ℝ) < Real.sqrt (200 / 3) ∧ Real.sqrt (200 / 3) < 8.17 := by
  have h := C3_variance_stddev_stability
  have hsq : Real.sqrt (200 / 3) ^ 2 =
      (((compute_manual_variance (fun q => q) [0, 10, 20]).1 : ℚ) : ℝ) := by
    rw [(h.2.2.1 (fun q => q)).1]
    rw [Real.sq_sqrt (by norm_num)]
    push_cast
    norm_num
  have hb := h.2.2.2 (Real.sqrt (200 / 3)) (Real.sqrt_nonneg _) hsq
  exact ⟨h.1 _, (h.2.1 _ rfl).1, hb.1, hb.2⟩

/- Projection lemmas for the chunk bookkeeping. -/

@[simp] theorem push_chunk_cleaned (cs : ℕ) (st : CleanState)
    (r : ValidationResult) :
    (push_chunk cs st r).cleaned_trips = st.cleaned_trips := by
  simp only [push_chunk]
  split <;> rfl

@[simp] theorem push_chunk_excluded (cs : ℕ) (st : CleanState)
    (r : ValidationResult) :
    (push_chunk cs st r).excluded_records = st.excluded_records := by
  simp only [push_chunk]
  split <;> rfl

@[simp] theorem push_chunk_stats (cs : ℕ) (st : CleanState)
    (r : ValidationResult) :
    (push_chunk cs st r).stats = st.stats := by
  simp only [push_chunk]
  split <;> rfl

theorem process_rows_total_valid :
    ∀ (rows : List RawRecord) (cs : ℕ) (st : CleanState) (idx : ℕ),
      st.stats.total_valid = st.cleaned_trips.length →
      (process_rows cs st idx rows).stats.total_valid =
        (process_rows cs st idx rows).cleaned_trips.length := by
  intro rows
  induction rows with
  | nil =>
    intro cs st idx h
    simpa [process_rows] using h
  | cons row rest ih =>
    intro cs st idx h
    simp only [process_rows]
    apply ih
    unfold process_step
    cases validate_record row idx with
    | valid rec => simp [h]
    | invalid r => simp [h]

theorem zh_update_count_sum (l : List ((ℤ × ℕ) × ZoneHourAgg)) (key : ℤ × ℕ)
    (t : CleanedRecord) :
    ((zh_update l key t).map (fun kv => kv.2.count)).sum =
      (l.map (fun kv => kv.2.count)).sum + 1 := by
  induction l with
  | nil => simp [zh_update]
  | cons p rest ih =>
    obtain ⟨k, a⟩ := p
    by_cases hk : k = key
    · simp [zh_update, hk]
      omega
    · simp [zh_update, hk, ih]
      omega

theorem zone_hour_trips_sum_aux :
    ∀ (trips : List CleanedRecord) (acc : List ((ℤ × ℕ) × ZoneHourAgg)),
      ((trips.foldl
            (fun acc t => zh_update acc (t.pulocation_id, t.hour_of_day) t)
            acc).map (fun kv => kv.2.count)).sum =
        (acc.map (fun kv => kv.2.count)).sum + trips.length := by
  intro trips
  induction trips with
  | nil => intro acc; simp
  | cons t rest ih =>
    intro acc
    simp only [List.foldl_cons]
    rw [ih, zh_update_count_sum]
    simp only [List.length_cons]
    omega

theorem exposure_counts_sum (trips : List CleanedRecord) :
    ((compute_exposure_density trips).map (fun kv => kv.2.trip_count)).sum =
      trips.length := by
  unfold compute_exposure_density
  rw [List.map_map]
  have hcomp :
      ((fun kv : (ℤ × ℕ) × ZoneHourMetric => kv.2.trip_count) ∘
        (fun kv : (ℤ × ℕ) × ZoneHourAgg =>
          (kv.1, ⟨kv.1.1, kv.1.2, kv.2.count,
            round_to 2 (if 0 < kv.2.count then kv.2.total_duration / (kv.2.count : ℚ) else 0),
            kv.2.count⟩))) =
      (fun kv : (ℤ × ℕ) × ZoneHourAgg => kv.2.count) := rfl
  rw [hcomp]
  unfold zone_hour_trips
  rw [zone_hour_trips_sum_aux]
  simp

/-- C4: over any raw input, the zone-hour trip counts of the exposure
aggregation sum to the `total_valid` counter of the ingestion run — every
valid trip lands in exactly one `(pickup_zone, hour_of_day)` bucket. -/
theorem C4_aggregation_soundness (chunk_size : ℕ) (rows : List RawRecord) :
    ((compute_exposure_density
        (process_csv_chunks chunk_size rows).cleaned_trips).map
      (fun kv => kv.2.trip_count)).sum =
      (process_csv_chunks chunk_size rows).stats.total_valid := by
  rw [exposure_counts_sum]
  simp only [process_csv_chunks]
  have h := process_rows_total_valid rows chunk_size init_state 1 rfl
  split
  · exact h.symm
  · exact h.symm

theorem process_step_proj (cs1 cs2 : ℕ) (st1 st2 : CleanState) (idx : ℕ)
    (row : RawRecord)
    (hc : st1.cleaned_trips = st2.cleaned_trips)
    (he : st1.excluded_records = st2.excluded_records)
    (hs : st1.stats = st2.stats) :
    (process_step cs1 st1 idx row).cleaned_trips =
        (process_step cs2 st2 idx row).cleaned_trips ∧
      (process_step cs1 st1 idx row).excluded_records =
        (process_step cs2 st2 idx row).excluded_records ∧
      (process_step cs1 st1 idx row).stats =
        (process_step cs2 st2 idx row).stats := by
  unfold process_step
  cases validate_record row idx with
  | valid rec => simp [hc, he, hs]
  | invalid r => simp [hc, he, hs]

theorem process_rows_proj :
    ∀ (rows : List RawRecord) (cs1 cs2 : ℕ) (st1 st2 : CleanState) (idx : ℕ),
      st1.cleaned_trips = st2.cleaned_trips →
      st1.excluded_records = st2.excluded_records →
      st1.stats = st2.stats →
      (process_rows cs1 st1 idx rows).cleaned_trips =
          (process_rows cs2 st2 idx rows).cleaned_trips ∧
        (process_rows cs1 st1 idx rows).excluded_records =
          (process_rows cs2 st2 idx rows).excluded_records ∧
        (process_rows cs1 st1 idx rows).stats =
          (process_rows cs2 st2 idx rows).stats := by
  intro rows
  induction rows with
  | nil =>
    intro cs1 cs2 st1 st2 idx hc he hs
    exact ⟨hc, he, hs⟩
  | cons row rest ih =>
    intro cs1 cs2 st1 st2 idx hc he hs
    simp only [process_rows]
    obtain ⟨hc', he', hs'⟩ := process_step_proj cs1 cs2 st1 st2 idx row hc he hs
    exact ih cs1 cs2 _ _ (idx + 1) hc' he' hs'

/-- C8: the chunk size is a pure progress boundary — for any two positive
chunk sizes the ingestion pipeline produces the same ordered cleaned trips,
the same ordered exclusion records, and the same summary counters. -/
theorem C8_chunk_size_independent (cs1 cs2 : ℕ) (rows : List RawRecord)
    (h1 : 0 < cs1) (h2 : 0 < cs2) :
    (process_csv_chunks cs1 rows).cleaned_trips =
        (process_csv_chunks cs2 rows).cleaned_trips ∧
      (process_csv_chunks cs1 rows).excluded_records =
        (process_csv_chunks cs2 rows).excluded_records ∧
      (process_csv_chunks cs1 rows).stats =
        (process_csv_chunks cs2 rows).stats := by
  obtain ⟨hc, he, hs⟩ :=
    process_rows_proj rows cs1 cs2 init_state init_state 1 rfl rfl rfl
  simp only [process_csv_chunks]
  constructor
  · split <;> split <;> simpa using hc
  constructor
  · split <;> split <;> simpa using he
  · split <;> split <;> simpa using hs

/-- Witness for C8 at two concrete chunk sizes on a concrete input. -/
theorem C8_chunk_size_independent_witness :
    (process_csv_chunks 1 [sample_row]).cleaned_trips =
        (process_csv_chunks 2 [sample_row]).cleaned_trips ∧
      (process_csv_chunks 1 [sample_row]).excluded_records =
        (process_csv_chunks 2 [sample_row]).excluded_records ∧
      (process_csv_chunks 1 [sample_row]).stats =
        (process_csv_chunks 2 [sample_row]).stats :=
  C8_chunk_size_independent 1 2 [sample_row] (by decide) (by decide)

theorem validate_tail_not_distance (row : RawRecord) (i : ℕ)
    (p d : DateTime) (td fa : ℚ) (pc pu dl : ℤ) :
    validate_tail row i p d td fa pc pu dl ≠ .invalid "distance_exceeds_max" := by
  intro h
  simp only [validate_tail] at h
  repeat'
    first
    | split at h
    | exact absurd (ValidationResult.invalid.inj h) (by decide)
    | exact ValidationResult.noConfusion h

set_option maxHeartbeats 1600000 in
theorem invalid_distance_inv (row : RawRecord) (i : ℕ)
    (h : validate_record row i = .invalid "distance_exceeds_max") :
    ∃ q, parse_float row.trip_distance = some q ∧ max_distance_miles < q := by
  simp only [validate_record] at h
  repeat'
    first
    | split at h
    | exact absurd (ValidationResult.invalid.inj h) (by decide)
    | exact ValidationResult.noConfusion h
  all_goals
    first
    | exact ⟨_, by assumption, by assumption⟩
    | exact absurd h (validate_tail_not_distance _ _ _ _ _ _ _ _ _)

unseal Rat.add Rat.mul Rat.inv Rat.sub in
/-- C7: boundary behaviour of the validator — a parsed distance equal to the
maximum of 50 is never excluded as `distance_exceeds_max` (the concrete
`sample_row` with distance "50" is fully valid), distance 50.01 is excluded
as `distance_exceeds_max`, and equal pickup and dropoff timestamps are
excluded as `dropoff_before_or_equal_pickup`. -/
theorem C7_boundary_behaviour :
    (∀ row i, parse_float row.trip_distance = some 50 →
      validate_record row i ≠ .invalid "distance_exceeds_max") ∧
    (validate_record sample_row 1).isValid = true ∧
    validate_record row_distance_5001 1 = .invalid "distance_exceeds_max" ∧
    (∀ row i p d, parse_datetime row.tpep_pickup_datetime = some p →
      parse_datetime row.tpep_dropoff_datetime = some d →
      toSeconds d = toSeconds p →
      validate_record row i = .invalid "dropoff_before_or_equal_pickup") := by
  refine ⟨?_, by decide, by decide, ?_⟩
  · intro row i h50 hc
    obtain ⟨q, hq, hgt⟩ := invalid_distance_inv row i hc
    rw [h50] at hq
    obtain rfl := Option.some.inj hq
    norm_num [max_distance_miles] at hgt
  · intro row i p d hp hd heq
    unfold validate_record
    simp only [hp, hd]
    rw [if_pos]
    exact le_of_eq heq

unseal Rat.add Rat.mul Rat.inv Rat.sub in
/-- Witness for C7 at the concrete boundary records. -/
theorem C7_boundary_behaviour_witness :
    validate_record sample_row 1 ≠ .invalid "distance_exceeds_max" ∧
    validate_record row_equal_times 1 =
      .invalid "dropoff_before_or_equal_pickup" :=
  ⟨C7_boundary_behaviour.1 sample_row 1 (by decide),
    C7_boundary_behaviour.2.2.2 row_equal_times 1 ⟨2019, 1, 15, 10, 0, 0⟩
      ⟨2019, 1, 15, 10, 0, 0⟩ (by decide) (by decide) rfl⟩

theorem validate_tail_valid_inv (row : RawRecord) (i : ℕ) (p d : DateTime)
    (td fa : ℚ) (pc pu dl : ℤ) (rec : CleanedRecord)
    (h : validate_tail row i p d td fa pc pu dl = .valid rec) :
    rec.pickup_datetime = p ∧ rec.dropoff_datetime = d ∧
    rec.trip_distance = round_to 2 td ∧ rec.fare_amount = round_to 2 fa ∧
    rec.passenger_count = pc ∧ rec.pulocation_id = pu ∧ rec.dolocation_id = dl ∧
    IsCentRounded rec.extra ∧ IsCentRounded rec.mta_tax ∧
    IsCentRounded rec.tip_amount ∧ IsCentRounded rec.tolls_amount ∧
    IsCentRounded rec.improvement_surcharge ∧ IsCentRounded rec.total_amount ∧
    IsCentRounded rec.congestion_surcharge ∧
    rec.ratecode_id ∈ VALID_RATE_CODES ∧
    rec.payment_type ∈ VALID_PAYMENT_TYPES ∧
    rec.store_and_fwd_flag ∈ VALID_STORE_FWD_FLAGS ∧
    min_trip_duration_minutes ≤ rec.trip_duration_minutes ∧
    rec.trip_duration_minutes ≤ max_trip_duration_minutes := by
  simp only [validate_tail] at h
  repeat'
    first
    | split at h
    | exact ValidationResult.noConfusion h
  all_goals rw [ValidationResult.valid.injEq] at h
  all_goals subst h
  all_goals
    refine ⟨rfl, rfl, rfl, rfl, rfl, rfl, rfl, ?_, ?_, ?_, ?_, ?_, ?_, ?_,
      ?_, ?_, ?_, ?_, ?_⟩
  all_goals
    first
    | exact isCentRounded_zero
    | exact isCentRounded_round_to_two _
    | exact not_not.mp (by assumption)
    | exact le_round_to_two _ _ 100 (by norm_num [min_trip_duration_minutes])
        (not_lt.mp (by assumption))
    | exact round_to_two_le _ _ 144000
        (by norm_num [max_trip_duration_minutes]) (not_lt.mp (by assumption))

set_option maxHeartbeats 3200000 in
/-- C1 (amended): every record returned valid satisfies all the §4.1
validation rules simultaneously and all its monetary fields are exact
two-decimal amounts, and `fare_amount` lies in the validated range [0, 500];
however `total_amount` and the secondary charge fields are not checked for
sign (see the counterexample), so only their rounding is an invariant. -/
theorem C1_validated_trip_invariants (row : RawRecord) (i : ℕ)
    (rec : CleanedRecord) (h : validate_record row i = .valid rec) :
    0 ≤ rec.fare_amount ∧ rec.fare_amount ≤ max_fare ∧
    IsCentRounded rec.fare_amount ∧
    IsCentRounded rec.extra ∧ IsCentRounded rec.mta_tax ∧
    IsCentRounded rec.tip_amount ∧ IsCentRounded rec.tolls_amount ∧
    IsCentRounded rec.improvement_surcharge ∧ IsCentRounded rec.total_amount ∧
    IsCentRounded rec.congestion_surcharge ∧
    0 ≤ rec.trip_distance ∧ rec.trip_distance ≤ max_distance_miles ∧
    min_passenger_count ≤ rec.passenger_count ∧
    rec.passenger_count ≤ max_passenger_count ∧
    rec.pulocation_id ∈ zone_ids ∧ rec.dolocation_id ∈ zone_ids ∧
    rec.ratecode_id ∈ VALID_RATE_CODES ∧
    rec.payment_type ∈ VALID_PAYMENT_TYPES ∧
    rec.store_and_fwd_flag ∈ VALID_STORE_FWD_FLAGS ∧
    toSeconds rec.pickup_datetime < toSeconds rec.dropoff_datetime ∧
    rec.pickup_datetime.year = 2019 ∧ rec.pickup_datetime.month = 1 ∧
    min_trip_duration_minutes ≤ rec.trip_duration_minutes ∧
    rec.trip_duration_minutes ≤ max_trip_duration_minutes := by
  simp only [validate_record] at h
  repeat'
    first
    | split at h
    | exact ValidationResult.noConfusion h
  obtain ⟨e1, e2, e3, e4, e5, e6, e7, r1, r2, r3, r4, r5, r6, r7,
      m1, m2, m3, d1, d2⟩ :=
    validate_tail_valid_inv _ _ _ _ _ _ _ _ _ _ h
  refine ⟨?_, ?_, ?_, r1, r2, r3, r4, r5, r6, r7, ?_, ?_, ?_, ?_, ?_, ?_,
    m1, m2, m3, ?_, ?_, ?_, d1, d2⟩
  · rw [e4]
    exact round_to_nonneg _ _
      (le_trans (show (0 : ℚ) ≤ min_fare by norm_num [min_fare])
        (not_lt.mp (by assumption)))
  · rw [e4]
    exact round_to_two_le _ _ 50000 (by norm_num [max_fare])
      (not_lt.mp (by assumption))
  · rw [e4]
    exact isCentRounded_round_to_two _
  · rw [e3]
    exact round_to_nonneg _ _ (not_lt.mp (by assumption))
  · rw [e3]
    exact round_to_two_le _ _ 5000 (by norm_num [max_distance_miles])
      (not_lt.mp (by assumption))
  · rw [e5]
    exact not_lt.mp (by assumption)
  · rw [e5]
    exact not_lt.mp (by assumption)
  · rw [e6]
    exact not_not.mp (by assumption)
  · rw [e7]
    exact not_not.mp (by assumption)
  · rw [e1, e2]
    exact not_le.mp (by assumption)
  · rw [e1]
    exact not_ne_iff.mp (not_or.mp (by assumption)).1
  · rw [e1]
    exact not_ne_iff.mp (not_or.mp (by assumption)).2

unseal Rat.add Rat.mul Rat.inv Rat.sub in
/-- Counterexample for C1 as stated by the specification: `row_neg_extra`
passes all validation rules, yet the produced ValidatedTrip carries the
negative secondary charge `extra = -1` — the validator never checks the sign
of `total_amount` or of the secondary charge fields. -/
theorem C1_counterexample_negative_extra :
    (validate_record row_neg_extra 1).isValid = true ∧
    (get_valid (validate_record row_neg_extra 1)).map (fun r => r.extra) =
      some (-1) := by
  constructor
  · decide
  · decide

unseal Rat.add Rat.mul Rat.inv Rat.sub in
/-- Witness for C1 (amended) at a concrete validated record. -/
theorem C1_validated_trip_invariants_witness :
    0 ≤ ((get_valid (validate_record row_neg_extra 1)).getD
        default).fare_amount :=
  (C1_validated_trip_invariants row_neg_extra 1
    ((get_valid (validate_record row_neg_extra 1)).getD default)
    (by decide)).1

theorem revenue_std_dev_nonneg (sqrt : ℚ → ℚ) (hs : ∀ q, 0 ≤ sqrt q)
    (trips : List CleanedRecord) :
    ∀ x ∈ compute_revenue_volatility sqrt trips, 0 ≤ x.2.revenue_std_dev := by
  intro x hx
  unfold compute_revenue_volatility at hx
  obtain ⟨zf, hzf, hmk⟩ := List.mem_filterMap.mp hx
  by_cases he : zf.2.isEmpty
  · rw [if_pos he] at hmk
    cases hmk
  · rw [if_neg he] at hmk
    obtain rfl := Option.some.inj hmk
    dsimp only
    apply round_to_nonneg
    unfold compute_manual_variance
    split
    · norm_num
    · exact hs _

theorem div_bounds_nat (tc mt : ℕ) (h : tc ≤ mt) :
    0 ≤ (if 0 < mt then (tc : ℚ) / (mt : ℚ) else 0) ∧
      (if 0 < mt then (tc : ℚ) / (mt : ℚ) else 0) ≤ 1 := by
  split
  · rename_i hmt
    constructor
    · positivity
    · rw [div_le_one (by exact_mod_cast hmt)]
      exact_mod_cast h
  · norm_num

theorem vol_norm_bounds (s m0 : ℚ) (hs : 0 ≤ s) (hm : s ≤ m0) :
    0 ≤ (if 0 < (if m0 = 0 then 1 else m0) then
        s / (if m0 = 0 then 1 else m0) else 0) ∧
      (if 0 < (if m0 = 0 then 1 else m0) then
        s / (if m0 = 0 then 1 else m0) else 0) ≤ 1 := by
  by_cases h0 : m0 = 0
  · subst h0
    have hs0 : s = 0 := le_antisymm hm hs
    simp [hs0]
  · have hpos : 0 < m0 := lt_of_le_of_ne (hs.trans hm) (Ne.symm h0)
    rw [if_neg h0, if_pos hpos]
    exact ⟨div_nonneg hs hpos.le, (div_le_one hpos).mpr hm⟩

theorem weight_component_bounds (w x : ℚ) (hw : 0 ≤ w) (hx0 : 0 ≤ x)
    (hx1 : x ≤ 1) (z : ℤ) (hz : w = (z : ℚ) / 10000) :
    0 ≤ round_to 4 (w * x) ∧ round_to 4 (w * x) ≤ w :=
  ⟨round_to_nonneg _ _ (mul_nonneg hw hx0),
    round_to_four_le _ _ z hz (mul_le_of_le_one_right hw hx1)⟩

theorem match_vol_bounds (ml : Option ZoneRevenueMetric) (m0 : ℚ)
    (h : ∀ m, ml = some m →
      0 ≤ m.revenue_std_dev ∧ m.revenue_std_dev ≤ m0) :
    0 ≤ (match ml with
        | some m =>
          if 0 < (if m0 = 0 then 1 else m0) then
            m.revenue_std_dev / (if m0 = 0 then 1 else m0)
          else 0
        | none => (0 : ℚ)) ∧
      (match ml with
        | some m =>
          if 0 < (if m0 = 0 then 1 else m0) then
            m.revenue_std_dev / (if m0 = 0 then 1 else m0)
          else 0
        | none => (0 : ℚ)) ≤ 1 := by
  cases ml with
  | none => norm_num
  | some m =>
    obtain ⟨h1, h2⟩ := h m rfl
    exact vol_norm_bounds _ _ h1 h2

theorem compute_risk_scores_bounds (zhm : List ((ℤ × ℕ) × ZoneHourMetric))
    (zrm : List (ℤ × ZoneRevenueMetric))
    (hz : ∀ x ∈ zrm, 0 ≤ x.2.revenue_std_dev) :
    ∀ e ∈ compute_risk_scores zhm zrm,
      (0 ≤ e.2.density_component ∧
        e.2.density_component ≤ RISK_WEIGHTS.density) ∧
      (0 ≤ e.2.late_night_component ∧
        e.2.late_night_component ≤ RISK_WEIGHTS.late_night) ∧
      (0 ≤ e.2.volatility_component ∧
        e.2.volatility_component ≤ RISK_WEIGHTS.volatility) ∧
      (0 ≤ e.2.risk_score ∧ e.2.risk_score ≤ 1) := by
  intro e he
  simp only [compute_risk_scores] at he
  obtain ⟨km, hkm, rfl⟩ := List.mem_map.mp he
  dsimp only
  have htc : km.2.trip_count ≤ py_max (zhm.map (fun m => m.2.trip_count)) 1 :=
    mem_le_py_max _ _ _ (List.mem_map_of_mem _ hkm)
  have hdn := div_bounds_nat km.2.trip_count
    (py_max (zhm.map (fun m => m.2.trip_count)) 1) htc
  have hln : (0 : ℚ) ≤ (if km.1.2 ∈ LATE_NIGHT_HOURS then (1 : ℚ) else 0) ∧
      (if km.1.2 ∈ LATE_NIGHT_HOURS then (1 : ℚ) else 0) ≤ 1 := by
    split <;> norm_num
  have hvn := match_vol_bounds (lookup_revenue zrm km.1.1)
    (py_max (zrm.map (fun m => m.2.revenue_std_dev)) 1)
    (by
      intro m hl
      obtain ⟨pr, hfind, hpr⟩ := Option.map_eq_some'.mp hl
      have hmem : pr ∈ zrm := List.mem_of_find?_eq_some hfind
      refine ⟨hpr ▸ hz pr hmem, ?_⟩
      rw [← hpr]
      exact mem_le_py_max _ _ _ (List.mem_map_of_mem _ hmem))
  refine ⟨?_, ?_, ?_, ?_⟩
  · exact weight_component_bounds _ _ (by norm_num [RISK_WEIGHTS]) hdn.1 hdn.2
      4000 (by norm_num [RISK_WEIGHTS])
  · exact weight_component_bounds _ _ (by norm_num [RISK_WEIGHTS]) hln.1 hln.2
      3000 (by norm_num [RISK_WEIGHTS])
  · exact weight_component_bounds _ _ (by norm_num [RISK_WEIGHTS]) hvn.1 hvn.2
      3000 (by norm_num [RISK_WEIGHTS])
  · constructor
    · exact round_to_nonneg _ _ (le_max_left _ _)
    · exact round_to_four_le _ _ 10000 (by norm_num)
        (max_le (by norm_num) (min_le_left _ _))

/-- C5: in the risk-score output computed from any cleaned trips, every
density component lies in [0, w_density], every late-night component in
[0, w_late_night], every volatility component in [0, w_volatility], and
every risk score in [0, 1]; the normalization denominators are the global
maxima (with the zero case floored to 1). `math.sqrt` enters only through
the zone standard deviations, so its non-negativity is the only fact
needed. -/
theorem C5_risk_component_bounds (sqrt : ℚ → ℚ) (hs : ∀ q, 0 ≤ sqrt q)
    (trips : List CleanedRecord) :
    ∀ e ∈ compute_risk_scores (compute_exposure_density trips)
        (compute_revenue_volatility sqrt trips),
      (0 ≤ e.2.density_component ∧
        e.2.density_component ≤ RISK_WEIGHTS.density) ∧
      (0 ≤ e.2.late_night_component ∧
        e.2.late_night_component ≤ RISK_WEIGHTS.late_night) ∧
      (0 ≤ e.2.volatility_component ∧
        e.2.volatility_component ≤ RISK_WEIGHTS.volatility) ∧
      (0 ≤ e.2.risk_score ∧ e.2.risk_score ≤ 1) :=
  compute_risk_scores_bounds _ _ (revenue_std_dev_nonneg sqrt hs trips)

unseal Rat.add Rat.mul Rat.inv Rat.sub in
/-- Witness for C5 at a concrete one-trip pipeline run. -/
theorem C5_risk_component_bounds_witness :
    (0 ≤ (((42, 10), (⟨42, 10, 1, 2 / 5, 0, 0, 2 / 5⟩ : RiskScore)) :
        (ℤ × ℕ) × RiskScore).2.density_component ∧
      (((42, 10), (⟨42, 10, 1, 2 / 5, 0, 0, 2 / 5⟩ : RiskScore)) :
        (ℤ × ℕ) × RiskScore).2.density_component ≤ RISK_WEIGHTS.density) ∧
    (0 ≤ (((42, 10), (⟨42, 10, 1, 2 / 5, 0, 0, 2 / 5⟩ : RiskScore)) :
        (ℤ × ℕ) × RiskScore).2.risk_score ∧
      (((42, 10), (⟨42, 10, 1, 2 / 5, 0, 0, 2 / 5⟩ : RiskScore)) :
        (ℤ × ℕ) × RiskScore).2.risk_score ≤ 1) := by
  have h := C5_risk_component_bounds (fun _ => 0) (fun q => le_rfl)
    [(get_valid (validate_record sample_row 1)).getD default]
    (((42, 10), (⟨42, 10, 1, 2 / 5, 0, 0, 2 / 5⟩ : RiskScore)))
    (by decide)
  exact ⟨h.1, h.2.2.2⟩

/-- Witness for C4 at a concrete run. -/
theorem C4_aggregation_soundness_witness :
    ((compute_exposure_density
        (process_csv_chunks CHUNK_SIZE [sample_row]).cleaned_trips).map
      (fun kv => kv.2.trip_count)).sum =
      (process_csv_chunks CHUNK_SIZE [sample_row]).stats.total_valid :=
  C4_aggregation_soundness CHUNK_SIZE [sample_row]

/-- Witness for C6 at a concrete record. -/
theorem C6_validator_total_exactly_one_witness :
    ((∃ rec, validate_record sample_row 1 = .valid rec) ∧
      ∀ r, validate_record sample_row 1 ≠ .invalid r) ∨
    ((∃ r, validate_record sample_row 1 = .invalid r ∧
        ∀ r', validate_record sample_row 1 = .invalid r' → r' = r) ∧
      ∀ rec, validate_record sample_row 1 ≠ .valid rec) :=
  C6_validator_total_exactly_one sample_row 1
